import Mathlib

/-!
Shallow embedding of the match-state engine of the cricket-commentary
repository: the data model (`src/core/state.py`), the probability model
(`src/core/probability.py`), the validator and state-transition engine
(`src/agents/event_handler.py`), and one iteration of the ingestion loop
(`src/cli/main.py`, `process_auto_events`).

Python floats are modelled as exact rationals (`ℚ`), Python ints as `ℤ`,
timestamps as `ℤ` (an abstract instant), optional values as `Option`, and
exceptions as `Except`.
-/

namespace CricketEngine

/-- Model `Batter` from `src/core/state.py`. -/
structure Batter where
  name : String
  runs : Int
  balls_faced : Int
  is_on_strike : Bool
deriving DecidableEq, Repr

/-- Model `Event` from `src/core/state.py`.  `balls_in_over` carries the
pydantic range constraint `ge=1, le=6` at construction time; here the field
is a plain integer and the constraint is enforced by `validate_event`. -/
structure Event where
  timestamp : Int
  event_type : String
  runs_scored : Int := 0
  batter : Option String := none
  bowler : Option String := none
  overs_played : ℚ
  dismissal_mode : Option String := none
  fielder : Option String := none
  current_score : Int
  current_wickets : Int
  balls_in_over : Int
  commentary : Option String := none
deriving DecidableEq, Repr

/-- Model `DismissedPlayer` from `src/core/state.py`. -/
structure DismissedPlayer where
  name : String
  runs : Int
  balls_faced : Int
  dismissal_mode : String
  bowler : String
  fielder : Option String := none
  dismissed_at_score : Int
  dismissed_at_overs : ℚ
deriving DecidableEq, Repr

/-- Model `MatchState` from `src/core/state.py`. -/
structure MatchState where
  match_id : String
  team_batting : String
  total_runs : Int
  wickets_lost : Int
  overs_played : ℚ
  target : Int
  current_batter : Batter
  dismissed_players : List DismissedPlayer := []
  recent_events : List Event := []
  p_draw : ℚ
  p_sa_win : ℚ
  last_updated : Int
deriving DecidableEq, Repr

/-- The time factor of `update_probability` (`src/core/probability.py`,
lines 53-54): `overs_remaining = 90 - state.overs_played`;
`time_factor = min(1.0, 1 + (overs_remaining / 90) * 0.2)`. -/
def time_factor (state : MatchState) : ℚ :=
  min 1 (1 + ((90 - state.overs_played) / 90) * 0.2)

/-- Function `update_probability` from `src/core/probability.py`: multiply the old
draw probability by the time factor, then the wicket penalty, then the
boundary boost, and clamp the result to `[0.05, 0.95]`. -/
def update_probability (old_p_draw : ℚ) (event : Event) (state : MatchState) : ℚ :=
  let p1 := old_p_draw * time_factor state
  let p2 :=
    if event.event_type = "wicket" then
      if state.wickets_lost < 5 then p1 * 0.85 else p1 * 0.70
    else p1
  let p3 :=
    if event.event_type = "runs" then
      if 4 ≤ event.runs_scored then p2 * 1.05 else p2
    else p2
  max 0.05 (min 0.95 p3)

/-- Python truthiness of an optional string (`if event.batter:` in
`update_state`): `None` and the empty string are falsy. -/
def str_truthy : Option String → Bool
  | none => false
  | some s => !s.isEmpty

/-- Python `x or "unknown"` on an optional string
(`event.dismissal_mode or "unknown"`, `event.bowler or "unknown"` in
`update_state`): `None` and the empty string fall back to `"unknown"`. -/
def or_unknown : Option String → String
  | none => "unknown"
  | some s => if s.isEmpty then "unknown" else s

/-- Runs attributed to the dismissed batter `b` in `update_state`
(`src/agents/event_handler.py`, lines 102-112): the current batter's tracked
runs when the name matches, otherwise the sum of `runs_scored` over the
`runs`-type events of `state.recent_events` whose `batter` matches `b`,
accumulated over the reversed list. -/
def dismissed_runs (state : MatchState) (b : String) : Int :=
  if state.current_batter.name = b then
    state.current_batter.runs
  else
    state.recent_events.reverse.foldl
      (fun acc pe =>
        if pe.batter = some b ∧ pe.event_type = "runs" then acc + pe.runs_scored
        else acc)
      0

/-- The dismissed-players list of the successor state in `update_state`
(`src/agents/event_handler.py`, lines 99-125): a copy of the prior list, with
one `DismissedPlayer` record appended when the event is a wicket and its
`batter` field is truthy. -/
def new_dismissed_players (state : MatchState) (event : Event) : List DismissedPlayer :=
  if event.event_type = "wicket" ∧ str_truthy event.batter then
    match event.batter with
    | some b =>
        state.dismissed_players ++
          [{ name := b
             runs := dismissed_runs state b
             balls_faced := 0
             dismissal_mode := or_unknown event.dismissal_mode
             bowler := or_unknown event.bowler
             fielder := event.fielder
             dismissed_at_score := event.current_score
             dismissed_at_overs := event.overs_played }]
    | none => state.dismissed_players
  else state.dismissed_players

/-- Function `update_state` from `src/agents/event_handler.py`: validate the event
against the prior state (negative runs, overs regression, wicket ceiling, in
that order, first failure winning), then rebuild the successor state from
scratch, with `p_draw` computed by `update_probability` on the prior state. -/
def update_state (state : MatchState) (event : Event) : Except String MatchState :=
  if event.runs_scored < 0 then
    Except.error "Runs cannot be negative"
  else if event.overs_played < state.overs_played then
    Except.error "Overs went backwards"
  else if event.event_type = "wicket" ∧ state.wickets_lost + 1 > 10 then
    Except.error "Cannot lose more than 10 wickets"
  else
    let new_p_draw := update_probability state.p_draw event state
    Except.ok
      { match_id := state.match_id
        team_batting := state.team_batting
        total_runs := event.current_score
        wickets_lost := event.current_wickets
        overs_played := event.overs_played
        target := state.target
        current_batter := state.current_batter
        dismissed_players := new_dismissed_players state event
        recent_events := state.recent_events ++ [event]
        p_draw := new_p_draw
        p_sa_win := 1 - new_p_draw
        last_updated := event.timestamp }

/-- One iteration of the ingestion loop `process_auto_events`
(`src/cli/main.py`, lines 119-123): after publishing the result of
`update_state`, the loop mutates the published state's `p_draw` with a second
call to `update_probability` — passing the already-updated probability and the
post-event state — and sets `p_sa_win` from that second value. -/
def process_auto_events_step (state : MatchState) (event : Event) : Except String MatchState :=
  match update_state state event with
  | Except.error msg => Except.error msg
  | Except.ok s1 =>
      let p2 := update_probability s1.p_draw event s1
      Except.ok { s1 with p_draw := p2, p_sa_win := 1 - p2 }

/-- Run a list of events through `update_state` in order, collecting the
successive successor states; the first rejected event aborts the run. -/
def run_events (state : MatchState) : List Event → Except String (List MatchState)
  | [] => Except.ok []
  | e :: rest =>
    match update_state state e with
    | Except.error msg => Except.error msg
    | Except.ok s1 =>
      match run_events s1 rest with
      | Except.error msg => Except.error msg
      | Except.ok states => Except.ok (s1 :: states)

/-- A raw timestamp value in an untrusted payload: either an already-parsed
instant (a non-string value pydantic accepts directly) or ISO-8601 text. -/
inductive RawTs where
  | dt (t : Int)
  | text (s : String)
deriving DecidableEq, Repr

/-- An untrusted event payload (a decoded JSON object) as consumed by
`validate_event`: every key may be absent. -/
structure RawEvent where
  event_type : Option String := none
  timestamp : Option RawTs := none
  current_score : Option Int := none
  current_wickets : Option Int := none
  overs_played : Option ℚ := none
  runs_scored : Option Int := none
  batter : Option String := none
  bowler : Option String := none
  dismissal_mode : Option String := none
  fielder : Option String := none
  balls_in_over : Option Int := none
  commentary : Option String := none
deriving DecidableEq, Repr

/-- Failure modes of `validate_event`: the explicit missing-field check and
the timestamp parse failure raise `ValueError`; a missing or out-of-range
`balls_in_over` is rejected by the pydantic `Event` model itself
(`src/core/state.py`, `balls_in_over: int = Field(ge=1, le=6, ...)`, a
required field). -/
inductive VError where
  | missingField (field : String)
  | invalidTimestamp
  | modelMissing (field : String)
  | fieldRange (field : String)
deriving DecidableEq, Repr

/-- The timestamp-normalisation step of `validate_event`: text is parsed with
`datetime.fromisoformat` (modelled by the parameter `parseISO`), a
non-string value passes through. -/
def parse_ts (parseISO : String → Option Int) : RawTs → Except VError Int
  | RawTs.dt t => Except.ok t
  | RawTs.text s =>
    match parseISO s with
    | some t => Except.ok t
    | none => Except.error VError.invalidTimestamp

/-- Function `validate_event` from `src/agents/event_handler.py`: check the five
required keys in order, normalise the timestamp, then construct the pydantic
`Event`, which itself requires `balls_in_over` and bounds it to `[1, 6]`.
`parseISO` stands for `datetime.fromisoformat`. -/
def validate_event (parseISO : String → Option Int) (raw : RawEvent) : Except VError Event :=
  match raw.event_type, raw.timestamp, raw.current_score, raw.current_wickets, raw.overs_played with
  | none, _, _, _, _ => Except.error (VError.missingField "event_type")
  | some _, none, _, _, _ => Except.error (VError.missingField "timestamp")
  | some _, some _, none, _, _ => Except.error (VError.missingField "current_score")
  | some _, some _, some _, none, _ => Except.error (VError.missingField "current_wickets")
  | some _, some _, some _, some _, none => Except.error (VError.missingField "overs_played")
  | some et, some ts, some cs, some cw, some op =>
    match parse_ts parseISO ts with
    | Except.error err => Except.error err
    | Except.ok t =>
      match raw.balls_in_over with
      | none => Except.error (VError.modelMissing "balls_in_over")
      | some b =>
        if b < 1 ∨ 6 < b then Except.error (VError.fieldRange "balls_in_over")
        else
          Except.ok
            { timestamp := t
              event_type := et
              runs_scored := raw.runs_scored.getD 0
              batter := raw.batter
              bowler := raw.bowler
              overs_played := op
              dismissal_mode := raw.dismissal_mode
              fielder := raw.fielder
              current_score := cs
              current_wickets := cw
              balls_in_over := b
              commentary := raw.commentary }

/-! ### Concrete fixtures

`seedState` is the Day-5 starting position of `initialize_match_state`
(`src/core/state.py`), `boundaryEvent` the boundary scenario of the spec's
section 8. The other fixtures exercise specific branches. -/

/-- The seed state of `initialize_match_state`: India 27/2 after 6.0 overs,
`p_draw = 0.35`, current batter Sai Sudharsan on 2 runs. -/
def seedState : MatchState :=
  { match_id := "117380"
    team_batting := "India"
    total_runs := 27
    wickets_lost := 2
    overs_played := 6.0
    target := 549
    current_batter := { name := "Sai Sudharsan", runs := 2, balls_faced := 4, is_on_strike := true }
    dismissed_players := []
    recent_events := []
    p_draw := 0.35
    p_sa_win := 0.65
    last_updated := 0 }

/-- A boundary: `runs` event with `runs_scored = 4`, score 31/2 at 7.1 overs. -/
def boundaryEvent : Event :=
  { timestamp := 1
    event_type := "runs"
    runs_scored := 4
    overs_played := 7.1
    current_score := 31
    current_wickets := 2
    balls_in_over := 1 }

/-- A dot ball: neither a wicket nor a `runs`-type event. -/
def dotEvent : Event :=
  { timestamp := 2
    event_type := "dot"
    runs_scored := 0
    overs_played := 7.2
    current_score := 31
    current_wickets := 2
    balls_in_over := 2 }

/-- A `runs` event whose reported `current_wickets` is 11: `update_state`
accepts it and copies the out-of-range total into the successor state. -/
def elevenWicketsEvent : Event :=
  { timestamp := 3
    event_type := "runs"
    runs_scored := 1
    overs_played := 7.3
    current_score := 32
    current_wickets := 11
    balls_in_over := 3 }

/-- An event with negative `runs_scored`, rejected by the first guard. -/
def negativeRunsEvent : Event :=
  { timestamp := 4
    event_type := "runs"
    runs_scored := -1
    overs_played := 7.4
    current_score := 31
    current_wickets := 2
    balls_in_over := 4 }

/-- A wicket event dismissing the current batter Sai Sudharsan. -/
def wicketEvent : Event :=
  { timestamp := 5
    event_type := "wicket"
    runs_scored := 0
    batter := some "Sai Sudharsan"
    bowler := some "Rabada"
    overs_played := 7.5
    dismissal_mode := some "bowled"
    current_score := 31
    current_wickets := 3
    balls_in_over := 5 }

/-- A raw payload with all five required keys and a non-string timestamp but
no `balls_in_over` key. -/
def rawNoBallsInOver : RawEvent :=
  { event_type := some "runs"
    timestamp := some (RawTs.dt 0)
    current_score := some 31
    current_wickets := some 2
    overs_played := some (7.1 : ℚ)
    runs_scored := some 4 }

/-! ### Helper lemmas -/

/-- The output of `update_probability` always lies in `[0.05, 0.95]`. -/
lemma update_probability_mem (p : ℚ) (e : Event) (s : MatchState) :
    0.05 ≤ update_probability p e s ∧ update_probability p e s ≤ 0.95 := by
  simp only [update_probability]
  exact ⟨le_max_left _ _, max_le (by norm_num) (min_le_left _ _)⟩

/-- Eliminating a successful `update_state`: all three guards are false and
the successor is the literal record built by the function. -/
lemma update_state_ok_elim {s : MatchState} {e : Event} {s' : MatchState}
    (h : update_state s e = Except.ok s') :
    ¬e.runs_scored < 0 ∧ ¬e.overs_played < s.overs_played
      ∧ ¬(e.event_type = "wicket" ∧ s.wickets_lost + 1 > 10)
      ∧ s' = { match_id := s.match_id
               team_batting := s.team_batting
               total_runs := e.current_score
               wickets_lost := e.current_wickets
               overs_played := e.overs_played
               target := s.target
               current_batter := s.current_batter
               dismissed_players := new_dismissed_players s e
               recent_events := s.recent_events ++ [e]
               p_draw := update_probability s.p_draw e s
               p_sa_win := 1 - update_probability s.p_draw e s
               last_updated := e.timestamp } := by
  unfold update_state at h
  split_ifs at h with h1 h2 h3
  simp only [Except.ok.injEq] at h
  exact ⟨h1, h2, h3, h.symm⟩

/-- The sequential multiplicative chain of `update_probability` collapses to
a single clamped product of the three factors. -/
lemma update_probability_eq_prod (p : ℚ) (e : Event) (s : MatchState) :
    update_probability p e s
      = max 0.05 (min 0.95 (p * time_factor s
          * (if e.event_type = "wicket" then
               if s.wickets_lost < 5 then 0.85 else 0.70
             else 1)
          * (if e.event_type = "runs" ∧ 4 ≤ e.runs_scored then 1.05 else 1))) := by
  simp only [update_probability]
  by_cases hw : e.event_type = "wicket"
  · have hr : ¬e.event_type = "runs" := by rw [hw]; decide
    by_cases h5 : s.wickets_lost < 5 <;> simp [hw, hr, h5]
  · by_cases hr : e.event_type = "runs"
    · by_cases h4 : 4 ≤ e.runs_scored <;> simp [hw, hr, h4]
    · simp [hw, hr]

/-! ### Claims -/

/-- C1: `update_probability` equals the clamped product
`max(0.05, min(0.95, oldP * timeFactor * wicketPenalty * boundaryBoost))`,
with the factors as the spec defines them, and its output always lies in
`[0.05, 0.95]`. -/
theorem update_probability_closed_form (p : ℚ) (e : Event) (s : MatchState) :
    update_probability p e s
      = max 0.05 (min 0.95 (p * time_factor s
          * (if e.event_type = "wicket" then
               if s.wickets_lost < 5 then 0.85 else 0.70
             else 1)
          * (if e.event_type = "runs" ∧ 4 ≤ e.runs_scored then 1.05 else 1)))
    ∧ 0.05 ≤ update_probability p e s ∧ update_probability p e s ≤ 0.95 :=
  ⟨update_probability_eq_prod p e s, update_probability_mem p e s⟩

/-- C10: for any prior state with `0 ≤ overs_played ≤ 90` the time factor is
exactly 1, so for events that are neither wickets nor boundaries the update
is just the clamp, which is the identity on `[0.05, 0.95]`. -/
theorem time_factor_identity (s : MatchState) (p : ℚ) (e : Event)
    (h0 : 0 ≤ s.overs_played) (h90 : s.overs_played ≤ 90) :
    time_factor s = 1
    ∧ (e.event_type ≠ "wicket" → ¬(e.event_type = "runs" ∧ 4 ≤ e.runs_scored) →
        update_probability p e s = max 0.05 (min 0.95 p)
        ∧ (0.05 ≤ p → p ≤ 0.95 → update_probability p e s = p)) := by
  have htf : time_factor s = 1 := by
    have h : (1 : ℚ) ≤ 1 + ((90 - s.overs_played) / 90) * 0.2 := by nlinarith
    simpa [time_factor] using min_eq_left h
  refine ⟨htf, fun hw hb => ?_⟩
  have heq : update_probability p e s = max 0.05 (min 0.95 p) := by
    rw [update_probability_eq_prod p e s, htf]
    have hw' : ¬e.event_type = "wicket" := hw
    simp [hw', hb]
  refine ⟨heq, fun hlo hhi => ?_⟩
  rw [heq, min_eq_right hhi, max_eq_right hlo]

/-- Witness for C10 at the seed state with a dot ball. -/
theorem time_factor_identity_witness :
    time_factor seedState = 1
    ∧ (dotEvent.event_type ≠ "wicket" →
        ¬(dotEvent.event_type = "runs" ∧ 4 ≤ dotEvent.runs_scored) →
        update_probability 0.35 dotEvent seedState = max 0.05 (min 0.95 0.35)
        ∧ (0.05 ≤ (0.35 : ℚ) → (0.35 : ℚ) ≤ 0.95 →
            update_probability 0.35 dotEvent seedState = 0.35)) :=
  time_factor_identity seedState 0.35 dotEvent
    (by norm_num [seedState]) (by norm_num [seedState])

/-- The successor of `seedState` under `boundaryEvent`:
`p_draw = 0.35 * 1.05 = 0.3675` (time factor 1, boundary boost). -/
def boundaryResult : MatchState :=
  { match_id := "117380"
    team_batting := "India"
    total_runs := 31
    wickets_lost := 2
    overs_played := 7.1
    target := 549
    current_batter := { name := "Sai Sudharsan", runs := 2, balls_faced := 4, is_on_strike := true }
    dismissed_players := []
    recent_events := [boundaryEvent]
    p_draw := 0.3675
    p_sa_win := 0.6325
    last_updated := 1 }

/-- Applying the spec's boundary scenario to the seed state. -/
lemma update_state_seed_boundary :
    update_state seedState boundaryEvent = Except.ok boundaryResult := by
  simp [update_state, update_probability, time_factor, new_dismissed_players, str_truthy,
    seedState, boundaryEvent, boundaryResult, min_def, max_def]
  norm_num

/-- C4: `update_state` fails exactly on negative runs, regressed overs, or a
wicket at ten wickets down, checked in that order with the first failing
check determining the reported error. -/
theorem update_state_error_characterization (s : MatchState) (e : Event) :
    ((∃ msg, update_state s e = Except.error msg) ↔
      (e.runs_scored < 0 ∨ e.overs_played < s.overs_played
        ∨ (e.event_type = "wicket" ∧ s.wickets_lost + 1 > 10)))
    ∧ (e.runs_scored < 0 → update_state s e = Except.error "Runs cannot be negative")
    ∧ (0 ≤ e.runs_scored → e.overs_played < s.overs_played →
        update_state s e = Except.error "Overs went backwards")
    ∧ (0 ≤ e.runs_scored → s.overs_played ≤ e.overs_played → e.event_type = "wicket" →
        s.wickets_lost + 1 > 10 →
        update_state s e = Except.error "Cannot lose more than 10 wickets") := by
  refine ⟨?_, ?_, ?_, ?_⟩
  · unfold update_state
    split_ifs with h1 h2 h3
    · simp [h1]
    · simp [h1, h2]
    · simp [h1, h2, h3]
    · simp [h1, h2, h3]
  · intro h1
    unfold update_state
    rw [if_pos h1]
  · intro h0 h2
    unfold update_state
    rw [if_neg (not_lt.mpr h0), if_pos h2]
  · intro h0 hov hw h10
    unfold update_state
    rw [if_neg (not_lt.mpr h0), if_neg (not_lt.mpr hov), if_pos ⟨hw, h10⟩]

/-- Witness for C4: the negative-runs event is rejected with the
negative-runs error. -/
theorem update_state_error_characterization_witness :
    update_state seedState negativeRunsEvent = Except.error "Runs cannot be negative" :=
  (update_state_error_characterization seedState negativeRunsEvent).2.1
    (by norm_num [negativeRunsEvent])

/-- C7: every successor produced by a successful `update_state` satisfies
`p_draw + p_sa_win = 1` exactly, `p_draw ∈ [0.05, 0.95]`, and neither
probability is resolved to exactly 0 or 1. -/
theorem update_state_probability_invariants (s : MatchState) (e : Event) (s' : MatchState)
    (h : update_state s e = Except.ok s') :
    s'.p_draw + s'.p_sa_win = 1
    ∧ 0.05 ≤ s'.p_draw ∧ s'.p_draw ≤ 0.95
    ∧ s'.p_draw ≠ 0 ∧ s'.p_draw ≠ 1 ∧ s'.p_sa_win ≠ 0 ∧ s'.p_sa_win ≠ 1 := by
  obtain ⟨-, -, -, hs⟩ := update_state_ok_elim h
  subst hs
  obtain ⟨hlo, hhi⟩ := update_probability_mem s.p_draw e s
  dsimp only
  refine ⟨by ring, hlo, hhi, ?_, ?_, ?_, ?_⟩
  · intro h0; rw [h0] at hlo; norm_num at hlo
  · intro h1; rw [h1] at hhi; norm_num at hhi
  · intro h0
    have : update_probability s.p_draw e s = 1 := by linarith
    rw [this] at hhi; norm_num at hhi
  · intro h1
    have : update_probability s.p_draw e s = 0 := by linarith
    rw [this] at hlo; norm_num at hlo

/-- Witness for C7 at the boundary scenario. -/
theorem update_state_probability_invariants_witness :
    boundaryResult.p_draw + boundaryResult.p_sa_win = 1
    ∧ 0.05 ≤ boundaryResult.p_draw ∧ boundaryResult.p_draw ≤ 0.95
    ∧ boundaryResult.p_draw ≠ 0 ∧ boundaryResult.p_draw ≠ 1
    ∧ boundaryResult.p_sa_win ≠ 0 ∧ boundaryResult.p_sa_win ≠ 1 :=
  update_state_probability_invariants seedState boundaryEvent boundaryResult
    update_state_seed_boundary

/-- A successful `update_state` never decreases `overs_played`. -/
lemma update_state_overs_step {s : MatchState} {e : Event} {s' : MatchState}
    (h : update_state s e = Except.ok s') : s.overs_played ≤ s'.overs_played := by
  obtain ⟨-, h2, -, hs⟩ := update_state_ok_elim h
  subst hs
  exact le_of_not_lt h2

/-- C8: along any run of events each accepted by `update_state`,
`overs_played` is non-decreasing across the successive states. -/
theorem overs_monotone (s : MatchState) (es : List Event) (sts : List MatchState)
    (h : run_events s es = Except.ok sts) :
    List.Chain (fun a b => a.overs_played ≤ b.overs_played) s sts := by
  induction es generalizing s sts with
  | nil =>
    simp only [run_events, Except.ok.injEq] at h
    subst h
    exact List.Chain.nil
  | cons e rest ih =>
    unfold run_events at h
    split at h
    · simp at h
    · rename_i s1 h1
      split at h
      · simp at h
      · rename_i states h2
        simp only [Except.ok.injEq] at h
        subst h
        exact List.Chain.cons (update_state_overs_step h1) (ih s1 states h2)

/-- Witness for C8: a one-event run from the seed state. -/
theorem overs_monotone_witness :
    List.Chain (fun a b => a.overs_played ≤ b.overs_played) seedState [boundaryResult] :=
  overs_monotone seedState [boundaryEvent] [boundaryResult]
    (by simp [run_events, update_state_seed_boundary])

/-- The successor's dismissed-players list extends the prior one. -/
lemma new_dismissed_extends (s : MatchState) (e : Event) :
    new_dismissed_players s e
      = s.dismissed_players
        ++ (new_dismissed_players s e).drop s.dismissed_players.length := by
  unfold new_dismissed_players
  split_ifs with hc
  · rcases he : e.batter with _ | b <;> simp [he, List.drop_left]
  · simp

/-- C9: after a successful `update_state`, the successor keeps `match_id`,
`team_batting`, `target` and `current_batter` unchanged, appends the event to
`recent_events`, extends `dismissed_players`, and stamps `last_updated` with
the event's timestamp.  (The prior state itself is a pure value here, so it
is unchanged by construction.) -/
theorem update_state_frame (s : MatchState) (e : Event) (s' : MatchState)
    (h : update_state s e = Except.ok s') :
    s'.match_id = s.match_id ∧ s'.team_batting = s.team_batting ∧ s'.target = s.target
    ∧ s'.current_batter = s.current_batter
    ∧ s'.recent_events = s.recent_events ++ [e]
    ∧ s'.dismissed_players
        = s.dismissed_players ++ s'.dismissed_players.drop s.dismissed_players.length
    ∧ s'.last_updated = e.timestamp := by
  obtain ⟨-, -, -, hs⟩ := update_state_ok_elim h
  subst hs
  exact ⟨rfl, rfl, rfl, rfl, rfl, new_dismissed_extends s e, rfl⟩

/-- Witness for C9 at the boundary scenario. -/
theorem update_state_frame_witness :
    boundaryResult.match_id = seedState.match_id
    ∧ boundaryResult.team_batting = seedState.team_batting
    ∧ boundaryResult.target = seedState.target
    ∧ boundaryResult.current_batter = seedState.current_batter
    ∧ boundaryResult.recent_events = seedState.recent_events ++ [boundaryEvent]
    ∧ boundaryResult.dismissed_players
        = seedState.dismissed_players
          ++ boundaryResult.dismissed_players.drop seedState.dismissed_players.length
    ∧ boundaryResult.last_updated = boundaryEvent.timestamp :=
  update_state_frame seedState boundaryEvent boundaryResult update_state_seed_boundary

/-- C3 counterexample: from the (valid) seed state, a `runs`-type event
reporting `current_wickets = 11` is accepted by `update_state` and the
successor's `wickets_lost` is 11, outside `[0, 10]`. -/
theorem wickets_bound_counterexample :
    (0 ≤ seedState.wickets_lost ∧ seedState.wickets_lost ≤ 10)
    ∧ (update_state seedState elevenWicketsEvent).map MatchState.wickets_lost = Except.ok 11
    ∧ ¬(11 : Int) ≤ 10 := by
  refine ⟨by norm_num [seedState], ?_, by norm_num⟩
  simp [update_state, update_probability, time_factor, new_dismissed_players, str_truthy,
    seedState, elevenWicketsEvent, Except.map, min_def, max_def]
  norm_num

/-- C3 amended: the successor's `wickets_lost` is copied from the event's
`current_wickets`, so it lies in `[0, 10]` exactly when the event's reported
total does; `update_state` itself never enforces the bound. -/
theorem wickets_bound_amended (s : MatchState) (e : Event) (s' : MatchState)
    (h : update_state s e = Except.ok s')
    (h0 : 0 ≤ e.current_wickets) (h10 : e.current_wickets ≤ 10) :
    s'.wickets_lost = e.current_wickets ∧ 0 ≤ s'.wickets_lost ∧ s'.wickets_lost ≤ 10 := by
  obtain ⟨-, -, -, hs⟩ := update_state_ok_elim h
  subst hs
  exact ⟨rfl, h0, h10⟩

/-- Witness for the amended C3 at the boundary scenario. -/
theorem wickets_bound_amended_witness :
    boundaryResult.wickets_lost = boundaryEvent.current_wickets
    ∧ 0 ≤ boundaryResult.wickets_lost ∧ boundaryResult.wickets_lost ≤ 10 :=
  wickets_bound_amended seedState boundaryEvent boundaryResult update_state_seed_boundary
    (by norm_num [boundaryEvent]) (by norm_num [boundaryEvent])

/-- C2 evidence: at the spec's boundary scenario the transition engine
publishes `p_draw = 0.3675`, but the ingestion loop's extra
`update_probability` call — made with the already-updated probability and the
post-event state — changes the published value to `0.385875`, so the loop's
published state is not `update_state`'s output and the probability is not
computed exactly once with the prior state. -/
theorem ingestion_loop_double_update :
    (update_state seedState boundaryEvent).map MatchState.p_draw = Except.ok 0.3675
    ∧ (process_auto_events_step seedState boundaryEvent).map MatchState.p_draw
        = Except.ok 0.385875
    ∧ (0.385875 : ℚ) ≠ 0.3675 := by
  refine ⟨?_, ?_, by norm_num⟩
  · rw [update_state_seed_boundary]
    simp [boundaryResult, Except.map]
  · unfold process_auto_events_step
    rw [update_state_seed_boundary]
    simp [update_probability, time_factor, boundaryResult, boundaryEvent, Except.map,
      min_def, max_def]
    norm_num

end CricketEngine

namespace CricketEngine

lemma foldl_cond_sum (b : String) (l : List Event) (a : Int) :
    l.foldl
      (fun acc pe =>
        if pe.batter = some b ∧ pe.event_type = "runs" then acc + pe.runs_scored
        else acc) a
      = a + ((l.filter
          (fun pe => pe.batter = some b ∧ pe.event_type = "runs")).map Event.runs_scored).sum := by
  induction l generalizing a with
  | nil => simp
  | cons x xs ih =>
    simp only [List.foldl_cons, List.filter_cons]
    by_cases hx : x.batter = some b ∧ x.event_type = "runs"
    · simp only [hx, if_pos, ih, decide_true_eq_true]
      simp [hx]
      omega
    · simp [hx, ih]

lemma dismissed_runs_eq (s : MatchState) (b : String) :
    dismissed_runs s b
      = if s.current_batter.name = b then s.current_batter.runs
        else ((s.recent_events.filter
            (fun pe => pe.batter = some b ∧ pe.event_type = "runs")).map
              Event.runs_scored).sum := by
  unfold dismissed_runs
  split_ifs with h
  · rfl
  · rw [foldl_cond_sum]
    simp [List.filter_reverse, List.map_reverse, List.sum_reverse]


/-- C6: a successful `update_state` on a wicket event with a present
(non-null, non-empty) batter appends exactly one `DismissedPlayer` record,
with runs taken from the current batter when the name matches and otherwise
reconstructed as the sum of matching `runs`-type events in `recent_events`,
`balls_faced = 0`, mode/bowler defaulted to `"unknown"`, and the event's
fielder, score string and overs; no record is appended otherwise. -/
theorem dismissal_attribution (s : MatchState) (e : Event) (s' : MatchState)
    (h : update_state s e = Except.ok s') :
    (∀ b, e.event_type = "wicket" → e.batter = some b → b ≠ "" →
      s'.dismissed_players = s.dismissed_players ++
        [{ name := b
           runs := if s.current_batter.name = b then s.current_batter.runs
                   else ((s.recent_events.filter
                       (fun pe => pe.batter = some b ∧ pe.event_type = "runs")).map
                         Event.runs_scored).sum
           balls_faced := 0
           dismissal_mode := or_unknown e.dismissal_mode
           bowler := or_unknown e.bowler
           fielder := e.fielder
           dismissed_at_score := e.current_score
           dismissed_at_overs := e.overs_played }])
    ∧ (¬(e.event_type = "wicket" ∧ str_truthy e.batter) →
        s'.dismissed_players = s.dismissed_players) := by
  obtain ⟨-, -, -, hs⟩ := update_state_ok_elim h
  subst hs
  dsimp only
  constructor
  · intro b hw hb hne
    unfold new_dismissed_players
    have hbe : b.isEmpty = false := by
      rcases hcase : b.isEmpty
      · rfl
      · exact absurd ((String.isEmpty_iff b).mp hcase) hne
    have htr : str_truthy e.batter = true := by
      rw [hb]
      simp [str_truthy, hbe]
    rw [if_pos ⟨hw, htr⟩, hb]
    simp [dismissed_runs_eq]
  · intro hne
    unfold new_dismissed_players
    rw [if_neg hne]


/-- The successor of `seedState` under `wicketEvent`: the current batter is
dismissed on 2 runs and `p_draw = 0.35 * 0.85 = 0.2975`. -/
def wicketResult : MatchState :=
  { match_id := "117380"
    team_batting := "India"
    total_runs := 31
    wickets_lost := 3
    overs_played := 7.5
    target := 549
    current_batter := { name := "Sai Sudharsan", runs := 2, balls_faced := 4, is_on_strike := true }
    dismissed_players := [{ name := "Sai Sudharsan"
                            runs := 2
                            balls_faced := 0
                            dismissal_mode := "bowled"
                            bowler := "Rabada"
                            fielder := none
                            dismissed_at_score := 31
                            dismissed_at_overs := 7.5 }]
    recent_events := [wicketEvent]
    p_draw := 0.2975
    p_sa_win := 0.7025
    last_updated := 5 }

/-- Applying the spec's wicket scenario to the seed state. -/
lemma update_state_seed_wicket :
    update_state seedState wicketEvent = Except.ok wicketResult := by
  simp [update_state, update_probability, time_factor, new_dismissed_players, str_truthy,
    or_unknown, dismissed_runs, seedState, wicketEvent, wicketResult, min_def, max_def]
  norm_num
  rfl

/-- Witness for C6: the wicket scenario appends exactly the expected record. -/
theorem dismissal_attribution_witness :
    wicketResult.dismissed_players = seedState.dismissed_players ++
      [{ name := "Sai Sudharsan"
         runs := if seedState.current_batter.name = "Sai Sudharsan" then
                   seedState.current_batter.runs
                 else ((seedState.recent_events.filter
                     (fun pe => pe.batter = some "Sai Sudharsan" ∧ pe.event_type = "runs")).map
                       Event.runs_scored).sum
         balls_faced := 0
         dismissal_mode := or_unknown wicketEvent.dismissal_mode
         bowler := or_unknown wicketEvent.bowler
         fielder := wicketEvent.fielder
         dismissed_at_score := wicketEvent.current_score
         dismissed_at_overs := wicketEvent.overs_played }] :=
  (dismissal_attribution seedState wicketEvent wicketResult update_state_seed_wicket).1
    "Sai Sudharsan" rfl rfl (by decide)


/-- C5 counterexample: a payload carrying all five required keys and an
already-parsed timestamp but no `balls_in_over` key is rejected by
`validate_event` (the pydantic `Event` model requires `balls_in_over`),
although none of the claim's three failure conditions holds. -/
theorem validate_event_counterexample :
    validate_event (fun _ => none) rawNoBallsInOver
        = Except.error (VError.modelMissing "balls_in_over")
    ∧ rawNoBallsInOver.event_type.isSome = true
    ∧ rawNoBallsInOver.timestamp = some (RawTs.dt 0)
    ∧ rawNoBallsInOver.current_score.isSome = true
    ∧ rawNoBallsInOver.current_wickets.isSome = true
    ∧ rawNoBallsInOver.overs_played.isSome = true
    ∧ rawNoBallsInOver.balls_in_over = none :=
  ⟨rfl, rfl, rfl, rfl, rfl, rfl, rfl⟩

/-- C5 amended: `validate_event` fails exactly when one of the five required
keys is missing (a missing-field error naming the first missing key in
order), the timestamp is text that does not parse as ISO-8601, or
`balls_in_over` is missing or lies outside `[1, 6]`; every other payload
yields an `Event`. -/
theorem validate_event_characterization (p : String → Option Int) (raw : RawEvent) :
    ((∃ err, validate_event p raw = Except.error err) ↔
      (raw.event_type = none ∨ raw.timestamp = none ∨ raw.current_score = none
        ∨ raw.current_wickets = none ∨ raw.overs_played = none
        ∨ (∃ st, raw.timestamp = some (RawTs.text st) ∧ p st = none)
        ∨ raw.balls_in_over = none
        ∨ (∃ b, raw.balls_in_over = some b ∧ (b < 1 ∨ 6 < b))))
    ∧ (raw.event_type = none →
        validate_event p raw = Except.error (VError.missingField "event_type"))
    ∧ (raw.event_type ≠ none → raw.timestamp = none →
        validate_event p raw = Except.error (VError.missingField "timestamp"))
    ∧ (raw.event_type ≠ none → raw.timestamp ≠ none → raw.current_score = none →
        validate_event p raw = Except.error (VError.missingField "current_score"))
    ∧ (raw.event_type ≠ none → raw.timestamp ≠ none → raw.current_score ≠ none →
        raw.current_wickets = none →
        validate_event p raw = Except.error (VError.missingField "current_wickets"))
    ∧ (raw.event_type ≠ none → raw.timestamp ≠ none → raw.current_score ≠ none →
        raw.current_wickets ≠ none → raw.overs_played = none →
        validate_event p raw = Except.error (VError.missingField "overs_played"))
    ∧ (∀ st, raw.event_type ≠ none → raw.current_score ≠ none → raw.current_wickets ≠ none →
        raw.overs_played ≠ none → raw.timestamp = some (RawTs.text st) → p st = none →
        validate_event p raw = Except.error VError.invalidTimestamp)
    ∧ (∀ ts t, raw.event_type ≠ none → raw.current_score ≠ none → raw.current_wickets ≠ none →
        raw.overs_played ≠ none → raw.timestamp = some ts → parse_ts p ts = Except.ok t →
        raw.balls_in_over = none →
        validate_event p raw = Except.error (VError.modelMissing "balls_in_over"))
    ∧ (∀ ts t b, raw.event_type ≠ none → raw.current_score ≠ none → raw.current_wickets ≠ none →
        raw.overs_played ≠ none → raw.timestamp = some ts → parse_ts p ts = Except.ok t →
        raw.balls_in_over = some b → (b < 1 ∨ 6 < b) →
        validate_event p raw = Except.error (VError.fieldRange "balls_in_over")) := by
  obtain ⟨et, ts, cs, cw, op, rs, ba, bo, dm, fi, bi, co⟩ := raw
  rcases et with _ | et
  · simp [validate_event]
  rcases ts with _ | ts
  · simp [validate_event]
  rcases cs with _ | cs
  · simp [validate_event]
  rcases cw with _ | cw
  · simp [validate_event]
  rcases op with _ | op
  · simp [validate_event]
  rcases ts with t | st
  · rcases bi with _ | b
    · simp [validate_event, parse_ts]
    · by_cases hb : b < 1 ∨ 6 < b
      · simp [validate_event, parse_ts, hb]
      · simp [validate_event, parse_ts, hb]
        intro ts' t' h1 h2
        omega
  · rcases hp : p st with _ | t
    · simp [validate_event, parse_ts, hp]
      constructor
      · intro ts' t' h1 h2
        subst h1
        simp [parse_ts, hp] at h2
      · intro ts' t' b h1 h2
        subst h1
        simp [parse_ts, hp] at h2
    · rcases bi with _ | b
      · simp [validate_event, parse_ts, hp]
      · by_cases hb : b < 1 ∨ 6 < b
        · simp [validate_event, parse_ts, hp, hb]
        · simp [validate_event, parse_ts, hp, hb]
          intro ts' t' h1 h2
          omega


/-- A raw payload missing only `event_type`. -/
def rawMissingEventType : RawEvent :=
  { timestamp := some (RawTs.dt 0)
    current_score := some 1
    current_wickets := some 1
    overs_played := some 1
    balls_in_over := some 3 }

/-- Witness for the amended C5: a payload missing `event_type` is rejected
with the missing-field error naming it. -/
theorem validate_event_characterization_witness :
    validate_event (fun _ => none) rawMissingEventType
      = Except.error (VError.missingField "event_type") :=
  (validate_event_characterization (fun _ => none) rawMissingEventType).2.1 rfl

end CricketEngine
